import Mathlib

/-
Shallow embedding of the conversation-allocation engine
(`schema.py`, `priority_engine.py`, `allocation_engine.py`,
`database_operations.py`).

Modelling conventions:
* SQL rows are Lean structures; tables are lists of rows in a `DB` record.
* Machine floats (priority scores, tenant weights) are modelled as `ℚ`.
* Timestamps (`datetime`) are modelled as `ℚ` counted in seconds, so
  `timedelta(minutes=g)` is `60 * g` and the scorer's
  `total_seconds() / 60` is division by 60.
* `datetime.utcnow()` is an explicit `now : ℚ` argument.
* Randomly generated primary keys (uuid defaults) are explicit arguments.
* A SQLAlchemy session that raises or returns early without committing
  rolls back, so those branches return the database unchanged.
-/

namespace InboxAllocation

inductive ConversationState
  | QUEUED
  | ALLOCATED
  | RESOLVED
deriving DecidableEq

inductive OperatorRole
  | OPERATOR
  | MANAGER
  | ADMIN
deriving DecidableEq

inductive OperatorAvailability
  | AVAILABLE
  | OFFLINE
deriving DecidableEq

inductive GraceReason
  | OFFLINE
  | MANUAL
deriving DecidableEq

/-- Row of `conversation_refs` (schema.py `ConversationRef`). -/
structure Conversation where
  id : String
  tenant_id : String
  inbox_id : String
  external_conversation_id : String
  customer_phone_number : String
  state : ConversationState
  assigned_operator_id : Option String
  last_message_at : ℚ
  message_count : ℕ
  priority_score : ℚ
  created_at : ℚ
  updated_at : ℚ
  resolved_at : Option ℚ
deriving DecidableEq

/-- Row of `operators`. -/
structure OperatorRec where
  id : String
  tenant_id : String
  role : OperatorRole
deriving DecidableEq

/-- Row of `operator_status`. -/
structure OperatorStatusRec where
  operator_id : String
  status : OperatorAvailability
  last_status_change_at : ℚ
deriving DecidableEq

/-- Row of `operator_inbox_subscriptions`. -/
structure SubscriptionRec where
  operator_id : String
  inbox_id : String
deriving DecidableEq

/-- Row of `grace_period_assignments` (schema.py `GracePeriodAssignment`). -/
structure GraceEntry where
  conversation_id : String
  operator_id : String
  expires_at : ℚ
  reason : GraceReason
deriving DecidableEq

/-- Row of `tenants` (per-tenant scoring weights). -/
structure TenantCfg where
  tenant_id : String
  alpha : ℚ
  beta : ℚ
deriving DecidableEq

/-- Row of `inboxes` (only the fields the modelled operations read). -/
structure InboxRec where
  id : String
  tenant_id : String
deriving DecidableEq

/-- The relational store the engine runs against. -/
structure DB where
  conversations : List Conversation
  operators : List OperatorRec
  statuses : List OperatorStatusRec
  subscriptions : List SubscriptionRec
  graces : List GraceEntry
  tenants : List TenantCfg
  inboxes : List InboxRec
deriving DecidableEq

/-- Python `str.strip()`: remove leading and trailing whitespace
(written structurally so that it evaluates in the kernel). -/
def pyStrip (s : String) : String :=
  ⟨((s.data.dropWhile Char.isWhitespace).reverse.dropWhile Char.isWhitespace).reverse⟩

/-- Replace the first element satisfying `p` by its image under `f`
(the effect of mutating the row returned by `scalar_one_or_none`). -/
def updateFirst : List α → (α → Bool) → (α → α) → List α
  | [], _, _ => []
  | a :: as, p, f => if p a then f a :: as else a :: updateFirst as p f

-- =========================
-- priority_engine.py
-- =========================

def DEFAULT_ALPHA : ℚ := 1

def DEFAULT_BETA : ℚ := 1

def DEFAULT_MAX_MESSAGE_COUNT : ℚ := 100

def DEFAULT_MAX_DELAY_MINUTES : ℚ := 1440

/-- `get_tenant_config`: alpha/beta weights, defaulting to (1, 1). -/
def get_tenant_config (db : DB) (tenant_id : String) : ℚ × ℚ :=
  match db.tenants.find? (fun t => decide (t.tenant_id = tenant_id)) with
  | some t => (t.alpha, t.beta)
  | none => (DEFAULT_ALPHA, DEFAULT_BETA)

/-- `normalize_value`: normalize into the 0-1 range, 0 when `max == min`. -/
def normalize_value (value min_val max_val : ℚ) : ℚ :=
  if max_val = min_val then 0 else (value - min_val) / (max_val - min_val)

/-- Python `min` over a nonempty list (0 as the unused empty default). -/
def listMin : List ℚ → ℚ
  | [] => 0
  | x :: xs => xs.foldl min x

/-- Python `max` over a nonempty list (0 as the unused empty default). -/
def listMax : List ℚ → ℚ
  | [] => 0
  | x :: xs => xs.foldl max x

/-- `delay_minutes = (now - last_message_at).total_seconds() / 60`.
The schema declares `last_message_at` NOT NULL, so the `else 0` guard of
the source is dead and the field is modelled as always present. -/
def delayMinutes (now : ℚ) (c : Conversation) : ℚ :=
  (now - c.last_message_at) / 60

/-- `calculate_normalized_priority_with_candidates` (priority_engine.py). -/
def calculate_normalized_priority_with_candidates (db : DB) (now : ℚ)
    (conv : Conversation) (candidate_set : List Conversation)
    (tenant_id : String) : ℚ :=
  if candidate_set.isEmpty then 0 else
  let ab := get_tenant_config db tenant_id
  if candidate_set.length = 1 then ab.1 + ab.2 else
  let delays := candidate_set.map (delayMinutes now)
  let message_counts := candidate_set.map (fun c => (c.message_count : ℚ))
  let min_delay := if delays.isEmpty then 0 else listMin delays
  let max_delay := if delays.isEmpty then DEFAULT_MAX_DELAY_MINUTES else listMax delays
  let min_count := if message_counts.isEmpty then 0 else listMin message_counts
  let max_count := if message_counts.isEmpty then DEFAULT_MAX_MESSAGE_COUNT else listMax message_counts
  let current_delay := delayMinutes now conv
  let current_count : ℚ := conv.message_count
  let normalized_delay := normalize_value current_delay min_delay max_delay
  let normalized_count := normalize_value current_count min_count max_count
  ab.1 * normalized_count + ab.2 * normalized_delay

-- =========================
-- allocation_engine.py: candidate selection and ranking
-- =========================

/-- Python sort key `(-priority_score, last_message_at)` as a boolean
"less or equal": higher score first, ties broken by older (smaller)
last activity first. -/
def rankLE (a b : Conversation) : Bool :=
  decide (b.priority_score < a.priority_score) ||
    (decide (a.priority_score = b.priority_score) &&
      decide (a.last_message_at ≤ b.last_message_at))

/-- `order_by(last_message_at.desc())`: most recent activity first. -/
def recentLE (a b : Conversation) : Bool :=
  decide (b.last_message_at ≤ a.last_message_at)

/-- Steps 3-4 of `allocate_next_conversation` / `list_queued_conversations_for_operator`:
QUEUED conversations of the tenant, most recent 100 by last activity. -/
def queued_candidates (db : DB) (tenant_id : String) : List Conversation :=
  (List.mergeSort
      (db.conversations.filter
        (fun c => decide (c.state = ConversationState.QUEUED ∧ c.tenant_id = tenant_id)))
      recentLE).take 100

/-- Step 5: write each candidate's score against the whole candidate set. -/
def score_candidates (db : DB) (now : ℚ) (tenant_id : String)
    (candidates : List Conversation) : List Conversation :=
  candidates.map
    (fun c =>
      { c with priority_score :=
          calculate_normalized_priority_with_candidates db now c candidates tenant_id })

/-- Step 6: `sorted(candidates, key=lambda c: (-c.priority_score, c.last_message_at))`
(Python `sorted` is a stable merge sort). -/
def rank_conversations (candidates : List Conversation) : List Conversation :=
  List.mergeSort candidates rankLE

/-- Persist the freshly computed scores of the ranked candidates
(the `update ... values(priority_score=...)` loop, and equally the
session flush of the mutated candidate rows on commit). -/
def persist_scores (convs : List Conversation) (scored : List Conversation) :
    List Conversation :=
  scored.foldl
    (fun acc c =>
      updateFirst acc (fun o => decide (o.id = c.id))
        (fun o => { o with priority_score := c.priority_score }))
    convs

/-- Auto-subscribe the operator to the conversation's inbox if the pairing
is absent (shared by allocation and claim). -/
def auto_subscribe (subs : List SubscriptionRec) (oid inbox_id : String) :
    List SubscriptionRec :=
  if subs.any (fun s => decide (s.operator_id = oid ∧ s.inbox_id = inbox_id)) then subs
  else subs ++ [⟨oid, inbox_id⟩]

/-- Commit phase of `allocate_next_conversation` (lines 115-152): re-fetch
the chosen conversation with the state-matching predicate
`id == top.id AND state == QUEUED`; if absent or no longer QUEUED, return
nothing-available with the database untouched (the session rolls back, so
none of the candidate scores persist either); otherwise apply the
ALLOCATED transition, persist the scores flushed with the same commit,
and auto-subscribe. -/
def allocate_commit (db : DB) (now : ℚ) (oid : String)
    (scored : List Conversation) (top : Conversation) :
    Option Conversation × DB :=
  match db.conversations.find?
      (fun c => decide (c.id = top.id ∧ c.state = ConversationState.QUEUED)) with
  | none => (none, db)
  | some conv =>
    let conv' : Conversation :=
      { conv with
          state := ConversationState.ALLOCATED
          assigned_operator_id := some oid
          priority_score := top.priority_score
          updated_at := now }
    let convs2 :=
      updateFirst (persist_scores db.conversations scored)
        (fun o => decide (o.id = conv.id)) (fun _ => conv')
    (some conv',
      { db with
          conversations := convs2
          subscriptions := auto_subscribe db.subscriptions oid conv.inbox_id })

/-- `allocate_next_conversation` (allocation_engine.py lines 35-152). -/
def allocate_next_conversation (db : DB) (now : ℚ) (operator_id : String) :
    Option Conversation × DB :=
  let oid := pyStrip operator_id
  if oid = "" then (none, db) else
  match db.operators.find? (fun o => decide (o.id = oid)) with
  | none => (none, db)
  | some operator =>
    match db.statuses.find? (fun s => decide (s.operator_id = oid)) with
    | none => (none, db)
    | some status =>
      if status.status ≠ OperatorAvailability.AVAILABLE then (none, db) else
      let candidates := queued_candidates db operator.tenant_id
      if candidates.isEmpty then (none, db) else
      let scored := score_candidates db now operator.tenant_id candidates
      match rank_conversations scored with
      | [] => (none, db)
      | top :: _rest => allocate_commit db now oid scored top

/-- `list_queued_conversations_for_operator` (lines 165-262): same
candidate selection and ranking as allocation, no transition, but the
freshly computed scores are persisted. Returns the ranked list (the
availability annotation of the response is not modelled; no claim
depends on it). Error paths return the empty list with no write. -/
def list_queued_conversations_for_operator (db : DB) (now : ℚ)
    (operator_id : String) : List Conversation × DB :=
  let oid := pyStrip operator_id
  if oid = "" then ([], db) else
  match db.operators.find? (fun o => decide (o.id = oid)) with
  | none => ([], db)
  | some operator =>
    let candidates := queued_candidates db operator.tenant_id
    if candidates.isEmpty then ([], db) else
    let scored := score_candidates db now operator.tenant_id candidates
    let ranked := rank_conversations scored
    (ranked, { db with conversations := persist_scores db.conversations ranked })

/-- `claim_conversation` (lines 269-368). -/
def claim_conversation (db : DB) (now : ℚ) (conversation_id operator_id : String) :
    Option Conversation × DB :=
  let cid := pyStrip conversation_id
  let oid := pyStrip operator_id
  if cid = "" ∨ oid = "" then (none, db) else
  match db.operators.find? (fun o => decide (o.id = oid)) with
  | none => (none, db)
  | some operator =>
    match db.conversations.find? (fun c => decide (c.id = cid)) with
    | none => (none, db)
    | some conv =>
      if conv.state ≠ ConversationState.QUEUED then (none, db) else
      if operator.tenant_id ≠ conv.tenant_id then (none, db) else
      match db.statuses.find? (fun s => decide (s.operator_id = oid)) with
      | none => (none, db)
      | some status =>
        if status.status ≠ OperatorAvailability.AVAILABLE then (none, db) else
        let conv' : Conversation :=
          { conv with
              state := ConversationState.ALLOCATED
              assigned_operator_id := some oid
              updated_at := now }
        (some conv',
          { db with
              conversations :=
                updateFirst db.conversations (fun c => decide (c.id = cid)) (fun _ => conv')
              subscriptions := auto_subscribe db.subscriptions oid conv.inbox_id })

/-- Outcome of an operation that may return `None`, raise
`PermissionError`, or return a record. -/
inductive EngineOutcome
  | noMatch
  | denied
  | ok (conv : Conversation)
deriving DecidableEq

/-- `resolve_conversation` (lines 375-450). Note the source order: the
operator lookup, then the conversation lookup, then the already-RESOLVED
idempotent branch, and only after that the owner / manager-admin
permission check; there is no check that the conversation is ALLOCATED,
and the assignee is not cleared on resolve. -/
def resolve_conversation (db : DB) (now : ℚ) (conversation_id operator_id : String) :
    EngineOutcome × DB :=
  let cid := pyStrip conversation_id
  let oid := pyStrip operator_id
  if cid = "" ∨ oid = "" then (.noMatch, db) else
  match db.operators.find? (fun o => decide (o.id = oid)) with
  | none => (.noMatch, db)
  | some operator =>
    match db.conversations.find? (fun c => decide (c.id = cid)) with
    | none => (.noMatch, db)
    | some conv =>
      if conv.state = ConversationState.RESOLVED then (.ok conv, db) else
      if conv.assigned_operator_id = some oid ∨
          (operator.tenant_id = conv.tenant_id ∧
            (operator.role = OperatorRole.MANAGER ∨ operator.role = OperatorRole.ADMIN)) then
        let conv' : Conversation :=
          { conv with
              state := ConversationState.RESOLVED
              resolved_at := some now
              updated_at := now }
        (.ok conv',
          { db with
              conversations :=
                updateFirst db.conversations (fun c => decide (c.id = cid)) (fun _ => conv') })
      else (.denied, db)

/-- `deallocate_conversation` (lines 457-502). -/
def deallocate_conversation (db : DB) (now : ℚ) (conversation_id : String) :
    Option Conversation × DB :=
  let cid := pyStrip conversation_id
  if cid = "" then (none, db) else
  match db.conversations.find? (fun c => decide (c.id = cid)) with
  | none => (none, db)
  | some conv =>
    if conv.state ≠ ConversationState.ALLOCATED then (none, db) else
    let conv' : Conversation :=
      { conv with
          state := ConversationState.QUEUED
          assigned_operator_id := none
          updated_at := now }
    (some conv',
      { db with
          conversations :=
            updateFirst db.conversations (fun c => decide (c.id = cid)) (fun _ => conv') })

/-- `operator_goes_offline` (lines 509-541): flip the operator's status
rows to OFFLINE and append one grace entry, expiring in `grace_minutes`,
for every conversation currently ALLOCATED to the operator. -/
def operator_goes_offline (db : DB) (now : ℚ) (operator_id : String)
    (grace_minutes : ℚ) : DB :=
  let expires := now + 60 * grace_minutes
  { db with
      statuses :=
        db.statuses.map
          (fun s =>
            if s.operator_id = operator_id then
              { s with status := OperatorAvailability.OFFLINE, last_status_change_at := now }
            else s)
      graces :=
        db.graces ++
          (db.conversations.filter
              (fun c => decide (c.assigned_operator_id = some operator_id ∧
                c.state = ConversationState.ALLOCATED))).map
            (fun c => ⟨c.id, operator_id, expires, GraceReason.OFFLINE⟩) }

/-- One iteration of the `process_grace_expiry` loop: fetch the
referenced conversation, revert it to QUEUED if it is still ALLOCATED. -/
def graceStep (now : ℚ) (cs : List Conversation) (g : GraceEntry) :
    List Conversation :=
  match cs.find? (fun c => decide (c.id = g.conversation_id)) with
  | none => cs
  | some conv =>
    if conv.state = ConversationState.ALLOCATED then
      updateFirst cs (fun c => decide (c.id = g.conversation_id))
        (fun c =>
          { c with
              state := ConversationState.QUEUED
              assigned_operator_id := none
              updated_at := now })
    else cs

/-- `process_grace_expiry` (lines 548-573): process every grace entry
with `expires_at <= now`; each entry is deleted in all cases. -/
def process_grace_expiry (db : DB) (now : ℚ) : DB :=
  let expired := db.graces.filter (fun g => decide (g.expires_at ≤ now))
  { db with
      conversations := expired.foldl (graceStep now) db.conversations
      graces := db.graces.filter (fun g => decide (now < g.expires_at)) }

/-- `operator_goes_online` (lines 577-602): flip the operator's status
rows to AVAILABLE and delete all of that operator's grace entries;
conversations are untouched. -/
def operator_goes_online (db : DB) (now : ℚ) (operator_id : String) : DB :=
  { db with
      statuses :=
        db.statuses.map
          (fun s =>
            if s.operator_id = operator_id then
              { s with status := OperatorAvailability.AVAILABLE, last_status_change_at := now }
            else s)
      graces := db.graces.filter (fun g => decide (g.operator_id ≠ operator_id)) }

/-- `get_operator_role` (lines 634-647). -/
def get_operator_role (db : DB) (operator_id : String) : Option OperatorRole :=
  if operator_id = "" then none else
  match db.operators.find? (fun o => decide (o.id = pyStrip operator_id)) with
  | some o => some o.role
  | none => none

/-- `is_manager_or_admin` (lines 650-657). -/
def is_manager_or_admin (db : DB) (operator_id : String) : Bool :=
  if operator_id = "" then false else
  match get_operator_role db operator_id with
  | some r => decide (r = OperatorRole.MANAGER ∨ r = OperatorRole.ADMIN)
  | none => false

-- =========================
-- database_operations.py
-- =========================

/-- `create_or_update_conversation` (database_operations.py lines
129-179), the message-ingestion hook: create QUEUED with count 1 and
score 0, or bump count and refresh activity. `new_id` stands for the
uuid-generated primary key used when a row is created. -/
def create_or_update_conversation (db : DB) (now : ℚ)
    (tenant_id inbox_id external_conversation_id customer_phone_number new_id : String) :
    Conversation × DB :=
  match db.conversations.find?
      (fun c => decide (c.tenant_id = tenant_id ∧ c.inbox_id = inbox_id ∧
        c.external_conversation_id = external_conversation_id)) with
  | none =>
    let conv : Conversation :=
      { id := new_id
        tenant_id := tenant_id
        inbox_id := inbox_id
        external_conversation_id := external_conversation_id
        customer_phone_number := customer_phone_number
        state := ConversationState.QUEUED
        assigned_operator_id := none
        last_message_at := now
        message_count := 1
        priority_score := 0
        created_at := now
        updated_at := now
        resolved_at := none }
    (conv, { db with conversations := db.conversations ++ [conv] })
  | some conv =>
    let conv' : Conversation :=
      { conv with
          message_count := conv.message_count + 1
          last_message_at := now
          updated_at := now }
    (conv',
      { db with
          conversations :=
            updateFirst db.conversations
              (fun c => decide (c.tenant_id = tenant_id ∧ c.inbox_id = inbox_id ∧
                c.external_conversation_id = external_conversation_id))
              (fun c =>
                { c with
                    message_count := c.message_count + 1
                    last_message_at := now
                    updated_at := now }) })

/-- `reassign_conversation` (database_operations.py lines 350-414):
MANAGER/ADMIN only; rejected when the conversation is ALLOCATED; the
target must exist in the conversation's tenant; on success the state is
set to ALLOCATED under the target operator (`resolved_at` untouched). -/
def reassign_conversation (db : DB) (now : ℚ)
    (conversation_id target_operator_id operator_id : String) :
    EngineOutcome × DB :=
  let cid := pyStrip conversation_id
  let tid := pyStrip target_operator_id
  let oid := pyStrip operator_id
  if cid = "" ∨ tid = "" ∨ oid = "" then (.noMatch, db) else
  if ¬ is_manager_or_admin db oid then (.denied, db) else
  match db.conversations.find? (fun c => decide (c.id = cid)) with
  | none => (.noMatch, db)
  | some conv =>
    if conv.state = ConversationState.ALLOCATED then (.noMatch, db) else
    if conv.state ≠ ConversationState.RESOLVED ∧ conv.state ≠ ConversationState.QUEUED then
      (.noMatch, db) else
    match db.operators.find? (fun o => decide (o.id = tid)) with
    | none => (.noMatch, db)
    | some target =>
      if target.tenant_id ≠ conv.tenant_id then (.noMatch, db) else
      let conv' : Conversation :=
        { conv with
            assigned_operator_id := some tid
            updated_at := now
            state := ConversationState.ALLOCATED }
      (.ok conv',
        { db with
            conversations :=
              updateFirst db.conversations (fun c => decide (c.id = cid)) (fun _ => conv') })

/-- `move_conversation_inbox` (database_operations.py lines 417-471):
MANAGER/ADMIN only; target inbox must exist in the same tenant; updates
the inbox reference only (every failing branch leaves the store
untouched, whether it returns None or raises). -/
def move_conversation_inbox (db : DB) (now : ℚ)
    (conversation_id target_inbox_id operator_id : String) :
    EngineOutcome × DB :=
  let cid := pyStrip conversation_id
  let ibid := pyStrip target_inbox_id
  let oid := pyStrip operator_id
  if cid = "" ∨ ibid = "" ∨ oid = "" then (.noMatch, db) else
  if ¬ is_manager_or_admin db oid then (.denied, db) else
  match db.conversations.find? (fun c => decide (c.id = cid)) with
  | none => (.noMatch, db)
  | some conv =>
    match db.inboxes.find? (fun i => decide (i.id = ibid)) with
    | none => (.noMatch, db)
    | some target_inbox =>
      if target_inbox.tenant_id ≠ conv.tenant_id then (.noMatch, db) else
      let conv' : Conversation := { conv with inbox_id := ibid, updated_at := now }
      (.ok conv',
        { db with
            conversations :=
              updateFirst db.conversations (fun c => decide (c.id = cid)) (fun _ => conv') })

-- =========================
-- Reachable engine states
-- =========================

/-- Databases reachable by running the engine's operations from a store
holding no conversations and no grace entries (operators, statuses,
subscriptions, tenant configs and inboxes arbitrary). -/
inductive Reachable : DB → Prop
  | init (ops : List OperatorRec) (sts : List OperatorStatusRec)
      (subs : List SubscriptionRec) (tens : List TenantCfg) (ibs : List InboxRec) :
      Reachable
        { conversations := []
          operators := ops
          statuses := sts
          subscriptions := subs
          graces := []
          tenants := tens
          inboxes := ibs }
  | create {db : DB} (now : ℚ) (tid iid eid ph nid : String) :
      Reachable db → Reachable (create_or_update_conversation db now tid iid eid ph nid).2
  | allocate {db : DB} (now : ℚ) (oid : String) :
      Reachable db → Reachable (allocate_next_conversation db now oid).2
  | listQueued {db : DB} (now : ℚ) (oid : String) :
      Reachable db → Reachable (list_queued_conversations_for_operator db now oid).2
  | claim {db : DB} (now : ℚ) (cid oid : String) :
      Reachable db → Reachable (claim_conversation db now cid oid).2
  | resolve {db : DB} (now : ℚ) (cid oid : String) :
      Reachable db → Reachable (resolve_conversation db now cid oid).2
  | dealloc {db : DB} (now : ℚ) (cid : String) :
      Reachable db → Reachable (deallocate_conversation db now cid).2
  | reassign {db : DB} (now : ℚ) (cid tid oid : String) :
      Reachable db → Reachable (reassign_conversation db now cid tid oid).2
  | move {db : DB} (now : ℚ) (cid ibid oid : String) :
      Reachable db → Reachable (move_conversation_inbox db now cid ibid oid).2
  | offline {db : DB} (now : ℚ) (oid : String) (g : ℚ) :
      Reachable db → Reachable (operator_goes_offline db now oid g)
  | online {db : DB} (now : ℚ) (oid : String) :
      Reachable db → Reachable (operator_goes_online db now oid)
  | expiry {db : DB} (now : ℚ) :
      Reachable db → Reachable (process_grace_expiry db now)

-- =========================
-- Record-level invariants
-- =========================

/-- Per-conversation structural invariant provable on every reachable
record: an ALLOCATED conversation has an assignee, a QUEUED one has
none, and a RESOLVED one has a resolution timestamp. (Note what is
deliberately absent: nothing relates RESOLVED to the assignee, and
nothing forbids a stale `resolved_at` outside RESOLVED — the code
violates both, see the C1/C2 counterexamples.) -/
abbrev ConvInv (c : Conversation) : Prop :=
  (c.state = ConversationState.ALLOCATED → c.assigned_operator_id ≠ none) ∧
  (c.state = ConversationState.QUEUED → c.assigned_operator_id = none) ∧
  (c.state = ConversationState.RESOLVED → c.resolved_at ≠ none)

/-- All conversations of a table satisfy the invariant. -/
abbrev ConvsOK (l : List Conversation) : Prop := ∀ c ∈ l, ConvInv c

-- =========================
-- Concrete scenario (used by counterexamples and witnesses)
-- =========================

/-- Initial store: operator `op1` and manager `mgr` in tenant `t`, plain
operator `ext` in the foreign tenant `u`; `op1` and `ext` AVAILABLE. -/
def storeA0 : DB :=
  { conversations := []
    operators :=
      [⟨"op1", "t", OperatorRole.OPERATOR⟩,
       ⟨"mgr", "t", OperatorRole.MANAGER⟩,
       ⟨"ext", "u", OperatorRole.OPERATOR⟩]
    statuses :=
      [⟨"op1", OperatorAvailability.AVAILABLE, 0⟩,
       ⟨"ext", OperatorAvailability.AVAILABLE, 0⟩]
    subscriptions := []
    graces := []
    tenants := []
    inboxes := [] }

/-- After the first inbound message: conversation `c1` QUEUED. -/
def storeA1 : DB := (create_or_update_conversation storeA0 1 "t" "i1" "e1" "p1" "c1").2

/-- After `op1` claims `c1`: ALLOCATED to `op1`. -/
def storeA2 : DB := (claim_conversation storeA1 2 "c1" "op1").2

/-- After `op1` resolves `c1`: RESOLVED (assignee not cleared). -/
def storeA3 : DB := (resolve_conversation storeA2 3 "c1" "op1").2

/-- After `mgr` reassigns the RESOLVED `c1` to `op1`: ALLOCATED again
(`resolved_at` not cleared). -/
def storeA4 : DB := (reassign_conversation storeA3 4 "c1" "op1" "mgr").2

/-- After `op1` resolves `c1` a second time: `resolved_at` overwritten. -/
def storeA5 : DB := (resolve_conversation storeA4 6 "c1" "op1").2

def convA1 : Conversation :=
  { id := "c1", tenant_id := "t", inbox_id := "i1"
    external_conversation_id := "e1", customer_phone_number := "p1"
    state := ConversationState.QUEUED, assigned_operator_id := none
    last_message_at := 1, message_count := 1, priority_score := 0
    created_at := 1, updated_at := 1, resolved_at := none }

def convA2 : Conversation :=
  { convA1 with
      state := ConversationState.ALLOCATED
      assigned_operator_id := some "op1"
      updated_at := 2 }

def convA3 : Conversation :=
  { convA2 with state := ConversationState.RESOLVED, resolved_at := some 3, updated_at := 3 }

def convA4 : Conversation :=
  { convA3 with state := ConversationState.ALLOCATED, updated_at := 4 }

def convA5 : Conversation :=
  { convA4 with state := ConversationState.RESOLVED, resolved_at := some 6, updated_at := 6 }

/-- The record produced when `mgr` resolves the QUEUED `c1` directly. -/
def convB : Conversation :=
  { convA1 with state := ConversationState.RESOLVED, resolved_at := some 5, updated_at := 5 }
/-- Store for the grace-expiry scenario: `og` holds `cg1` and `cg2`;
the grace entry for `cg1` has lapsed (expires 10 ≤ now 50), the one for
`cg2` has not (expires 100). -/
def convG1 : Conversation :=
  { id := "cg1", tenant_id := "t", inbox_id := "i1"
    external_conversation_id := "e1", customer_phone_number := "p1"
    state := ConversationState.ALLOCATED, assigned_operator_id := some "og"
    last_message_at := 1, message_count := 1, priority_score := 0
    created_at := 1, updated_at := 2, resolved_at := none }

def convG2 : Conversation :=
  { convG1 with id := "cg2", external_conversation_id := "e2" }

def storeG : DB :=
  { conversations := [convG1, convG2]
    operators := [⟨"og", "t", OperatorRole.OPERATOR⟩]
    statuses := [⟨"og", OperatorAvailability.OFFLINE, 5⟩]
    subscriptions := []
    graces :=
      [⟨"cg1", "og", 10, GraceReason.OFFLINE⟩,
       ⟨"cg2", "og", 100, GraceReason.OFFLINE⟩]
    tenants := []
    inboxes := [] }

-- =========================
-- Generic list lemmas
-- =========================

theorem mem_updateFirst {l : List α} {p : α → Bool} {f : α → α} {x : α}
    (hx : x ∈ updateFirst l p f) : x ∈ l ∨ ∃ a, a ∈ l ∧ x = f a := by
  induction l with
  | nil => cases hx
  | cons a as ih =>
    rw [updateFirst] at hx
    by_cases h : p a
    · rw [if_pos h] at hx
      rcases List.mem_cons.mp hx with h1 | h1
      · exact Or.inr ⟨a, List.mem_cons_self a as, h1⟩
      · exact Or.inl (List.mem_cons_of_mem _ h1)
    · rw [if_neg h] at hx
      rcases List.mem_cons.mp hx with h1 | h1
      · exact Or.inl (h1 ▸ List.mem_cons_self a as)
      · rcases ih h1 with h2 | ⟨a2, ha2, hfa⟩
        · exact Or.inl (List.mem_cons_of_mem _ h2)
        · exact Or.inr ⟨a2, List.mem_cons_of_mem _ ha2, hfa⟩

theorem convsOK_updateFirst {l : List Conversation} {p : Conversation → Bool}
    {f : Conversation → Conversation} (h : ConvsOK l)
    (hf : ∀ a ∈ l, ConvInv (f a)) : ConvsOK (updateFirst l p f) := by
  intro c hc
  rcases mem_updateFirst hc with h1 | ⟨a, ha, rfl⟩
  · exact h c h1
  · exact hf a ha

theorem convsOK_persist_scores {scored : List Conversation}
    {convs : List Conversation} (h : ConvsOK convs) :
    ConvsOK (persist_scores convs scored) := by
  unfold persist_scores
  induction scored generalizing convs with
  | nil => exact h
  | cons c cs ih =>
    simp only [List.foldl_cons]
    exact ih (convsOK_updateFirst h (fun a ha => h a ha))

theorem convsOK_graceStep {cs : List Conversation} {g : GraceEntry} {now : ℚ}
    (h : ConvsOK cs) : ConvsOK (graceStep now cs g) := by
  unfold graceStep
  split
  · exact h
  · split
    · refine convsOK_updateFirst h (fun a _ => ?_)
      exact ⟨fun hh => (nomatch hh), fun _ => rfl, fun hh => (nomatch hh)⟩
    · exact h

theorem convsOK_foldl_graceStep {gs : List GraceEntry} {cs : List Conversation}
    {now : ℚ} (h : ConvsOK cs) : ConvsOK (gs.foldl (graceStep now) cs) := by
  induction gs generalizing cs with
  | nil => exact h
  | cons g gs ih => exact ih (convsOK_graceStep h)

-- =========================
-- Invariant preservation, operation by operation
-- =========================

theorem convsOK_create {db : DB} {now : ℚ} {tid iid eid ph nid : String}
    (h : ConvsOK db.conversations) :
    ConvsOK (create_or_update_conversation db now tid iid eid ph nid).2.conversations := by
  simp only [create_or_update_conversation]
  split
  · intro c hc
    rcases List.mem_append.mp hc with h1 | h1
    · exact h c h1
    · rcases List.mem_singleton.mp h1 with rfl
      exact ⟨fun hh => (nomatch hh), fun _ => rfl, fun hh => (nomatch hh)⟩
  · exact convsOK_updateFirst h (fun a ha => (h a ha))

theorem convsOK_allocate_commit {db : DB} {now : ℚ} {oid : String}
    {scored : List Conversation} {top : Conversation}
    (h : ConvsOK db.conversations) :
    ConvsOK (allocate_commit db now oid scored top).2.conversations := by
  simp only [allocate_commit]
  split
  · exact h
  · refine convsOK_updateFirst (convsOK_persist_scores h) (fun a _ => ?_)
    exact ⟨fun _ hh => (nomatch hh), fun hh => (nomatch hh), fun hh => (nomatch hh)⟩

theorem convsOK_allocate {db : DB} {now : ℚ} {oid : String}
    (h : ConvsOK db.conversations) :
    ConvsOK (allocate_next_conversation db now oid).2.conversations := by
  simp only [allocate_next_conversation]
  repeat' split
  any_goals exact h
  exact convsOK_allocate_commit h

theorem convsOK_listQueued {db : DB} {now : ℚ} {oid : String}
    (h : ConvsOK db.conversations) :
    ConvsOK (list_queued_conversations_for_operator db now oid).2.conversations := by
  simp only [list_queued_conversations_for_operator]
  repeat' split
  any_goals exact h
  exact convsOK_persist_scores h

theorem convsOK_claim {db : DB} {now : ℚ} {cid oid : String}
    (h : ConvsOK db.conversations) :
    ConvsOK (claim_conversation db now cid oid).2.conversations := by
  simp only [claim_conversation]
  repeat' split
  any_goals exact h
  refine convsOK_updateFirst h (fun a _ => ?_)
  exact ⟨fun _ hh => (nomatch hh), fun hh => (nomatch hh), fun hh => (nomatch hh)⟩

theorem convsOK_resolve {db : DB} {now : ℚ} {cid oid : String}
    (h : ConvsOK db.conversations) :
    ConvsOK (resolve_conversation db now cid oid).2.conversations := by
  simp only [resolve_conversation]
  repeat' split
  any_goals exact h
  refine convsOK_updateFirst h (fun a _ => ?_)
  exact ⟨fun hh => (nomatch hh), fun hh => (nomatch hh), fun _ hh => (nomatch hh)⟩

theorem convsOK_dealloc {db : DB} {now : ℚ} {cid : String}
    (h : ConvsOK db.conversations) :
    ConvsOK (deallocate_conversation db now cid).2.conversations := by
  simp only [deallocate_conversation]
  repeat' split
  any_goals exact h
  refine convsOK_updateFirst h (fun a _ => ?_)
  exact ⟨fun hh => (nomatch hh), fun _ => rfl, fun hh => (nomatch hh)⟩

theorem convsOK_reassign {db : DB} {now : ℚ} {cid tid oid : String}
    (h : ConvsOK db.conversations) :
    ConvsOK (reassign_conversation db now cid tid oid).2.conversations := by
  simp only [reassign_conversation]
  repeat' split
  any_goals exact h
  refine convsOK_updateFirst h (fun a _ => ?_)
  exact ⟨fun _ hh => (nomatch hh), fun hh => (nomatch hh), fun hh => (nomatch hh)⟩

theorem convsOK_move {db : DB} {now : ℚ} {cid ibid oid : String}
    (h : ConvsOK db.conversations) :
    ConvsOK (move_conversation_inbox db now cid ibid oid).2.conversations := by
  simp only [move_conversation_inbox]
  split
  · exact h
  · split
    · exact h
    · split
      · exact h
      · rename_i conv hconv
        split
        · exact h
        · split
          · exact h
          · refine convsOK_updateFirst h (fun a _ => ?_)
            exact h conv (List.mem_of_find?_eq_some hconv)

theorem convsOK_expiry {db : DB} {now : ℚ} (h : ConvsOK db.conversations) :
    ConvsOK (process_grace_expiry db now).conversations :=
  convsOK_foldl_graceStep h

/-- Every database reachable through the engine's operations satisfies
the per-conversation invariant `ConvInv`. -/
theorem reachable_inv {db : DB} (h : Reachable db) : ConvsOK db.conversations := by
  induction h with
  | init ops sts subs tens ibs => intro c hc; cases hc
  | create now tid iid eid ph nid _ ih => exact convsOK_create ih
  | allocate now oid _ ih => exact convsOK_allocate ih
  | listQueued now oid _ ih => exact convsOK_listQueued ih
  | claim now cid oid _ ih => exact convsOK_claim ih
  | resolve now cid oid _ ih => exact convsOK_resolve ih
  | dealloc now cid _ ih => exact convsOK_dealloc ih
  | reassign now cid tid oid _ ih => exact convsOK_reassign ih
  | move now cid ibid oid _ ih => exact convsOK_move ih
  | offline now oid g _ ih => exact ih
  | online now oid _ ih => exact ih
  | expiry now _ ih => exact convsOK_expiry ih

-- =========================
-- Ranking order lemmas
-- =========================

theorem rankLE_total (a b : Conversation) : (rankLE a b || rankLE b a) = true := by
  simp only [rankLE, Bool.or_eq_true, Bool.and_eq_true, decide_eq_true_eq]
  rcases lt_trichotomy a.priority_score b.priority_score with h | h | h
  · exact Or.inr (Or.inl h)
  · rcases le_total a.last_message_at b.last_message_at with hl | hl
    · exact Or.inl (Or.inr ⟨h, hl⟩)
    · exact Or.inr (Or.inr ⟨h.symm, hl⟩)
  · exact Or.inl (Or.inl h)

theorem rankLE_trans (a b c : Conversation) (hab : rankLE a b = true)
    (hbc : rankLE b c = true) : rankLE a c = true := by
  simp only [rankLE, Bool.or_eq_true, Bool.and_eq_true, decide_eq_true_eq] at *
  rcases hab with h1 | ⟨h1, h2⟩ <;> rcases hbc with h3 | ⟨h3, h4⟩
  · exact Or.inl (h3.trans h1)
  · exact Or.inl (h3 ▸ h1)
  · exact Or.inl (h1 ▸ h3)
  · exact Or.inr ⟨h1.trans h3, h2.trans h4⟩

theorem mergeSort_pair {α : Type} (a b : α) (le : α → α → Bool) :
    List.mergeSort [a, b] le = if le a b then [a, b] else [b, a] := by
  simp [List.mergeSort, List.merge]

-- =========================
-- C4, C5, C9
-- =========================

/-- C4: after the top-ranked candidate is chosen,
`allocate_next_conversation` re-fetches it with the state-matching
predicate `id == top.id AND state == QUEUED` (the single call to
`allocate_commit`, made exactly once, with no retry of the ranking); if
that re-fetch comes back empty — the conversation is gone or no longer
QUEUED — the operation returns the nothing-available result and the
store is completely unchanged. -/
theorem C4_allocate_refetch_guard (db : DB) (now : ℚ) (oid : String)
    (scored : List Conversation) (top : Conversation)
    (h : db.conversations.find?
        (fun c => decide (c.id = top.id ∧ c.state = ConversationState.QUEUED)) = none) :
    allocate_commit db now oid scored top = (none, db) := by
  simp only [allocate_commit, h]

/-- C4 witness: in `storeA2` the conversation `c1` is ALLOCATED, so the
re-fetch predicate finds nothing and the commit phase is a no-op. -/
theorem C4_witness :
    storeA2.conversations.find?
        (fun c => decide (c.id = convA1.id ∧ c.state = ConversationState.QUEUED)) = none ∧
    allocate_commit storeA2 10 "op1" [] convA1 = (none, storeA2) :=
  ⟨by decide, C4_allocate_refetch_guard storeA2 10 "op1" [] convA1 (by decide)⟩

/-- C5: the ranking used by `allocate_next_conversation` and
`list_queued_conversations_for_operator` (`rank_conversations`) sorts by
priority score descending with ties broken by ascending last-activity
timestamp, and on two candidates with equal score the one with the
older last-activity timestamp comes out first — hence it is the one
selected for allocation (the functions take the head of this list). -/
theorem C5_ranking_order (l : List Conversation) (A B : Conversation)
    (hs : A.priority_score = B.priority_score)
    (ht : B.last_message_at < A.last_message_at) :
    List.Pairwise (fun a b => rankLE a b = true) (rank_conversations l) ∧
    rank_conversations [A, B] = [B, A] := by
  constructor
  · exact List.sorted_mergeSort rankLE_trans rankLE_total l
  · have hAB : rankLE A B = false := by
      simp only [rankLE, hs, Bool.or_eq_false_iff, Bool.and_eq_false_iff,
        decide_eq_false_iff_not, not_lt, not_le]
      exact ⟨le_refl _, Or.inr ht⟩
    rw [rank_conversations, mergeSort_pair, hAB]
    simp

/-- C5 witness: two equal-score candidates; the one with the older
last-activity timestamp is ranked first, and the general sortedness
holds on a concrete list. -/
theorem C5_witness :
    List.Pairwise (fun a b => rankLE a b = true)
        (rank_conversations [convA1, { convA1 with id := "c2", last_message_at := 0 }]) ∧
    rank_conversations [convA1, { convA1 with id := "c2", last_message_at := 0 }] =
      [{ convA1 with id := "c2", last_message_at := 0 }, convA1] :=
  C5_ranking_order [convA1, { convA1 with id := "c2", last_message_at := 0 }]
    convA1 { convA1 with id := "c2", last_message_at := 0 } (by decide) (by decide)

/-- C9: the priority scorer returns exactly `alpha + beta` for a
one-element candidate set (whatever the conversation and tenant
weights), and 0 for an empty candidate set. -/
theorem C9_priority_edge_cases (db : DB) (now : ℚ) (conv c : Conversation)
    (tid : String) :
    calculate_normalized_priority_with_candidates db now conv [] tid = 0 ∧
    calculate_normalized_priority_with_candidates db now conv [c] tid =
      (get_tenant_config db tid).1 + (get_tenant_config db tid).2 := by
  constructor
  · rfl
  · simp [calculate_normalized_priority_with_candidates]

-- =========================
-- C1, C2: lifecycle field invariants
-- =========================

/-- C1 counterexample: the conversation `c1` is created, claimed by
`op1` and then resolved by `op1` — all engine operations — yet the
resulting RESOLVED record still carries `assigned_operator_id = "op1"`:
`resolve_conversation` does not null the assignee, so the claimed
invariant "assigned operator is non-null iff state == ALLOCATED" (and in
particular the claim that a freshly resolved record has a null
assignee) is false on the code. -/
theorem C1_counterexample :
    Reachable storeA3 ∧ convA3 ∈ storeA3.conversations ∧
    convA3.state = ConversationState.RESOLVED ∧
    convA3.assigned_operator_id = some "op1" := by
  refine ⟨?_, by decide, by decide, by decide⟩
  exact Reachable.resolve 3 "c1" "op1"
    (Reachable.claim 2 "c1" "op1"
      (Reachable.create 1 "t" "i1" "e1" "p1" "c1" (Reachable.init _ _ _ _ _)))

/-- C1 amended: on every reachable conversation record, an ALLOCATED
state implies a non-null assigned operator and a QUEUED state implies a
null one; the equivalence claimed by the spec fails only in that
`resolve_conversation` leaves the assignee of a RESOLVED record
untouched (see the counterexample). -/
theorem C1_assignee_invariant (db : DB) (h : Reachable db) :
    ∀ c ∈ db.conversations,
      (c.state = ConversationState.ALLOCATED → c.assigned_operator_id ≠ none) ∧
      (c.state = ConversationState.QUEUED → c.assigned_operator_id = none) :=
  fun c hc => ⟨(reachable_inv h c hc).1, (reachable_inv h c hc).2.1⟩

/-- C1 witness: the invariant instantiated on the reachable store in
which `op1` has claimed `c1`. -/
theorem C1_witness :
    (convA2.state = ConversationState.ALLOCATED → convA2.assigned_operator_id ≠ none) ∧
    (convA2.state = ConversationState.QUEUED → convA2.assigned_operator_id = none) :=
  C1_assignee_invariant storeA2
    (Reachable.claim 2 "c1" "op1"
      (Reachable.create 1 "t" "i1" "e1" "p1" "c1" (Reachable.init _ _ _ _ _)))
    convA2 (by decide)

/-- C2 counterexample: `c1` is resolved at time 3 (`resolved_at = 3`),
then `mgr` reassigns the RESOLVED conversation to `op1` — accepted, and
the record becomes ALLOCATED while retaining `resolved_at = 3`,
refuting "resolved_at is set iff state == RESOLVED"; resolving again at
time 6 then overwrites `resolved_at` to 6, refuting "once set it is
never changed by any later operation". -/
theorem C2_counterexample :
    Reachable storeA4 ∧ convA4 ∈ storeA4.conversations ∧
    convA4.state = ConversationState.ALLOCATED ∧ convA4.resolved_at = some 3 ∧
    Reachable storeA5 ∧ convA5 ∈ storeA5.conversations ∧
    convA5.id = convA4.id ∧ convA5.resolved_at = some 6 := by
  have h4 : Reachable storeA4 :=
    Reachable.reassign 4 "c1" "op1" "mgr"
      (Reachable.resolve 3 "c1" "op1"
        (Reachable.claim 2 "c1" "op1"
          (Reachable.create 1 "t" "i1" "e1" "p1" "c1" (Reachable.init _ _ _ _ _))))
  exact ⟨h4, by decide, by decide, by decide,
    Reachable.resolve 6 "c1" "op1" h4, by decide, by decide, by decide⟩

/-- C2 amended: on every reachable conversation record, a RESOLVED
state implies `resolved_at` is set. The converse fails (reassign leaves
a stale `resolved_at` on an ALLOCATED record) and the timestamp can be
overwritten by a later resolve after such a reassignment (see the
counterexample). -/
theorem C2_resolved_at_invariant (db : DB) (h : Reachable db) :
    ∀ c ∈ db.conversations,
      c.state = ConversationState.RESOLVED → c.resolved_at ≠ none :=
  fun c hc => (reachable_inv h c hc).2.2

/-- C2 witness: the invariant instantiated on the reachable store in
which `c1` has been resolved. -/
theorem C2_witness :
    convA3.state = ConversationState.RESOLVED ∧ convA3.resolved_at ≠ none :=
  ⟨by decide,
    C2_resolved_at_invariant storeA3
      (Reachable.resolve 3 "c1" "op1"
        (Reachable.claim 2 "c1" "op1"
          (Reachable.create 1 "t" "i1" "e1" "p1" "c1" (Reachable.init _ _ _ _ _))))
      convA3 (by decide) (by decide)⟩

-- =========================
-- C3: resolve on a QUEUED conversation
-- =========================

/-- C3 counterexample: `c1` is QUEUED (never allocated), yet
`resolve_conversation` by `mgr` — a MANAGER of the same tenant —
succeeds and moves it straight to RESOLVED, contradicting the claim
that a resolve request on a QUEUED conversation fails for every
operator and changes nothing. -/
theorem C3_counterexample :
    Reachable storeA1 ∧ convA1 ∈ storeA1.conversations ∧
    convA1.state = ConversationState.QUEUED ∧
    (resolve_conversation storeA1 5 "c1" "mgr").1 = EngineOutcome.ok convB ∧
    convB.state = ConversationState.RESOLVED ∧
    (resolve_conversation storeA1 5 "c1" "mgr").2.conversations = [convB] := by
  refine ⟨?_, by decide, by decide, by decide, by decide, by decide⟩
  exact Reachable.create 1 "t" "i1" "e1" "p1" "c1" (Reachable.init _ _ _ _ _)

/-- C3 amended: `resolve_conversation` checks only permissions, not the
ALLOCATED state: on a QUEUED conversation a caller who is neither the
assignee (there is none) nor a MANAGER/ADMIN of the same tenant gets an
authorization error (not a state-conflict no-match) and the store is
unchanged, while a MANAGER/ADMIN of the same tenant successfully
resolves the QUEUED conversation directly — so newly resolved records
can come from QUEUED as well as ALLOCATED. -/
theorem C3_resolve_queued (db : DB) (now : ℚ) (cid oid : String)
    (op : OperatorRec) (conv : Conversation)
    (hcid : pyStrip cid ≠ "") (hoid : pyStrip oid ≠ "")
    (hop : db.operators.find? (fun o => decide (o.id = pyStrip oid)) = some op)
    (hconv : db.conversations.find? (fun c => decide (c.id = pyStrip cid)) = some conv)
    (hq : conv.state = ConversationState.QUEUED) :
    (conv.assigned_operator_id = none →
      (op.tenant_id ≠ conv.tenant_id ∨ op.role = OperatorRole.OPERATOR) →
      resolve_conversation db now cid oid = (EngineOutcome.denied, db)) ∧
    (op.tenant_id = conv.tenant_id →
      (op.role = OperatorRole.MANAGER ∨ op.role = OperatorRole.ADMIN) →
      resolve_conversation db now cid oid =
        (EngineOutcome.ok
          { conv with
              state := ConversationState.RESOLVED
              resolved_at := some now
              updated_at := now },
         { db with
             conversations :=
               updateFirst db.conversations (fun c => decide (c.id = pyStrip cid))
                 (fun _ =>
                   { conv with
                       state := ConversationState.RESOLVED
                       resolved_at := some now
                       updated_at := now }) })) := by
  have hnr : conv.state ≠ ConversationState.RESOLVED := by
    rw [hq]; intro hh; cases hh
  constructor
  · intro hassigned hno
    simp only [resolve_conversation, hop, hconv]
    rw [if_neg (by simp [hcid, hoid]), if_neg hnr, if_neg]
    rintro (h1 | ⟨h2, h3⟩)
    · rw [hassigned] at h1; cases h1
    · rcases hno with h4 | h4
      · exact h4 h2
      · rcases h3 with h5 | h5 <;> rw [h4] at h5 <;> cases h5
  · intro hsame hrole
    simp only [resolve_conversation, hop, hconv]
    rw [if_neg (by simp [hcid, hoid]), if_neg hnr, if_pos (Or.inr ⟨hsame, hrole⟩)]

/-- C3 witness: on the store with QUEUED `c1`, the cross-tenant plain
operator `ext` is denied with no change, while the same-tenant manager
`mgr` resolves the QUEUED conversation outright. -/
theorem C3_witness :
    resolve_conversation storeA1 5 "c1" "ext" = (EngineOutcome.denied, storeA1) ∧
    (resolve_conversation storeA1 5 "c1" "mgr").1 = EngineOutcome.ok convB := by
  constructor
  · exact (C3_resolve_queued storeA1 5 "c1" "ext" ⟨"ext", "u", OperatorRole.OPERATOR⟩
      convA1 (by decide) (by decide) (by decide) (by decide) (by decide)).1
      (by decide) (Or.inl (by decide))
  · have h := (C3_resolve_queued storeA1 5 "c1" "mgr" ⟨"mgr", "t", OperatorRole.MANAGER⟩
      convA1 (by decide) (by decide) (by decide) (by decide) (by decide)).2
      (by decide) (Or.inl (by decide))
    rw [h]
    decide

-- =========================
-- C6, C10: the idempotent RESOLVED branch of resolve
-- =========================

/-- C6: resolving an already-RESOLVED conversation succeeds, returns
the current record, leaves the store byte-for-byte unchanged, and a
repeated call (at any later time) returns the same record again with no
mutation of `resolved_at`, the state, or any other field. -/
theorem C6_resolve_idempotent (db : DB) (now now2 : ℚ) (cid oid : String)
    (op : OperatorRec) (conv : Conversation)
    (hcid : pyStrip cid ≠ "") (hoid : pyStrip oid ≠ "")
    (hop : db.operators.find? (fun o => decide (o.id = pyStrip oid)) = some op)
    (hconv : db.conversations.find? (fun c => decide (c.id = pyStrip cid)) = some conv)
    (hres : conv.state = ConversationState.RESOLVED) :
    resolve_conversation db now cid oid = (EngineOutcome.ok conv, db) ∧
    resolve_conversation (resolve_conversation db now cid oid).2 now2 cid oid =
      (EngineOutcome.ok conv, db) := by
  have hgen : ∀ t : ℚ, resolve_conversation db t cid oid = (EngineOutcome.ok conv, db) := by
    intro t
    simp [resolve_conversation, hop, hconv, hres, hcid, hoid]
  refine ⟨hgen now, ?_⟩
  rw [hgen now]
  exact hgen now2

/-- C6 witness: both the first and the repeated resolve of the RESOLVED
`c1` by its assignee return the same record and leave the store
unchanged. -/
theorem C6_witness :
    resolve_conversation storeA3 7 "c1" "op1" = (EngineOutcome.ok convA3, storeA3) ∧
    resolve_conversation (resolve_conversation storeA3 7 "c1" "op1").2 8 "c1" "op1" =
      (EngineOutcome.ok convA3, storeA3) :=
  C6_resolve_idempotent storeA3 7 8 "c1" "op1" ⟨"op1", "t", OperatorRole.OPERATOR⟩
    convA3 (by decide) (by decide) (by decide) (by decide) (by decide)

/-- C10: the already-RESOLVED idempotent branch of
`resolve_conversation` runs before any ownership or role check, so any
existing operator — here one from a different tenant, with plain
OPERATOR role and not the assignee — receives the resolved record as a
success (never the authorization error) and nothing is written. -/
theorem C10_resolved_skips_authorization (db : DB) (now : ℚ) (cid oid : String)
    (op : OperatorRec) (conv : Conversation)
    (hcid : pyStrip cid ≠ "") (hoid : pyStrip oid ≠ "")
    (hop : db.operators.find? (fun o => decide (o.id = pyStrip oid)) = some op)
    (hconv : db.conversations.find? (fun c => decide (c.id = pyStrip cid)) = some conv)
    (hres : conv.state = ConversationState.RESOLVED)
    (hdiff : op.tenant_id ≠ conv.tenant_id) (hrole : op.role = OperatorRole.OPERATOR)
    (hnotassignee : conv.assigned_operator_id ≠ some (pyStrip oid)) :
    resolve_conversation db now cid oid = (EngineOutcome.ok conv, db) ∧
    (resolve_conversation db now cid oid).1 ≠ EngineOutcome.denied := by
  have h : resolve_conversation db now cid oid = (EngineOutcome.ok conv, db) := by
    simp [resolve_conversation, hop, hconv, hres, hcid, hoid]
  refine ⟨h, ?_⟩
  rw [h]
  intro hh
  cases hh

/-- C10 witness: the cross-tenant plain operator `ext` (tenant `u`, not
the assignee) resolves the RESOLVED `c1` of tenant `t` successfully. -/
theorem C10_witness :
    resolve_conversation storeA3 7 "c1" "ext" = (EngineOutcome.ok convA3, storeA3) ∧
    (resolve_conversation storeA3 7 "c1" "ext").1 ≠ EngineOutcome.denied :=
  C10_resolved_skips_authorization storeA3 7 "c1" "ext"
    ⟨"ext", "u", OperatorRole.OPERATOR⟩ convA3 (by decide) (by decide) (by decide)
    (by decide) (by decide) (by decide) (by decide) (by decide)

-- =========================
-- C7: offline grace creation and online cancellation
-- =========================

/-- C7: `operator_goes_offline` with grace `g` creates exactly one
grace entry — expiring at `now + g` minutes, reason OFFLINE — for each
conversation currently ALLOCATED to the operator and no others
(appended to the ledger), flips every status row of that operator to
OFFLINE, and touches no conversation; `operator_goes_online`
immediately afterwards deletes exactly the operator's grace entries
(all of them, including the new ones) and again leaves every
conversation's state and assignee untouched. -/
theorem C7_offline_online (db : DB) (now now2 : ℚ) (oid : String) (g : ℚ) :
    (operator_goes_offline db now oid g).conversations = db.conversations ∧
    (operator_goes_offline db now oid g).graces =
      db.graces ++
        (db.conversations.filter
            (fun c => decide (c.assigned_operator_id = some oid ∧
              c.state = ConversationState.ALLOCATED))).map
          (fun c => ⟨c.id, oid, now + 60 * g, GraceReason.OFFLINE⟩) ∧
    (∀ s ∈ (operator_goes_offline db now oid g).statuses,
      s.operator_id = oid → s.status = OperatorAvailability.OFFLINE) ∧
    (operator_goes_online (operator_goes_offline db now oid g) now2 oid).conversations =
      db.conversations ∧
    (operator_goes_online (operator_goes_offline db now oid g) now2 oid).graces =
      db.graces.filter (fun e => decide (e.operator_id ≠ oid)) ∧
    (∀ s ∈ (operator_goes_online (operator_goes_offline db now oid g) now2 oid).statuses,
      s.operator_id = oid → s.status = OperatorAvailability.AVAILABLE) := by
  refine ⟨rfl, rfl, ?_, rfl, ?_, ?_⟩
  · intro s hs hsid
    rcases List.mem_map.mp hs with ⟨s0, _, rfl⟩
    by_cases h0 : s0.operator_id = oid
    · simp [h0]
    · simp only [if_neg h0] at hsid
      exact absurd hsid h0
  · simp only [operator_goes_online, operator_goes_offline]
    rw [List.filter_append]
    have hnil :
        ((db.conversations.filter
            (fun c => decide (c.assigned_operator_id = some oid ∧
              c.state = ConversationState.ALLOCATED))).map
          (fun c => (⟨c.id, oid, now + 60 * g, GraceReason.OFFLINE⟩ : GraceEntry))).filter
            (fun e => decide (e.operator_id ≠ oid)) = [] := by
      rw [List.filter_eq_nil_iff]
      intro e he
      rcases List.mem_map.mp he with ⟨c, _, rfl⟩
      simp
    rw [hnil, List.append_nil]
  · intro s hs hsid
    rcases List.mem_map.mp hs with ⟨s1, _, rfl⟩
    by_cases h1 : s1.operator_id = oid
    · simp [h1]
    · simp only [if_neg h1] at hsid
      exact absurd hsid h1

/-- C7 witness: on the store where `op1` holds the single ALLOCATED
conversation `c1`, going offline at time 10 with one grace minute
creates exactly the entry expiring at 70, and going online removes it;
the conversation list is untouched throughout and the status rows flip
as stated. -/
theorem C7_witness :
    (operator_goes_offline storeA2 10 "op1" 1).conversations = storeA2.conversations ∧
    (operator_goes_offline storeA2 10 "op1" 1).graces =
      storeA2.graces ++
        (storeA2.conversations.filter
            (fun c => decide (c.assigned_operator_id = some "op1" ∧
              c.state = ConversationState.ALLOCATED))).map
          (fun c => ⟨c.id, "op1", 10 + 60 * 1, GraceReason.OFFLINE⟩) ∧
    (⟨"op1", OperatorAvailability.OFFLINE, 10⟩ : OperatorStatusRec).status =
      OperatorAvailability.OFFLINE ∧
    (operator_goes_online (operator_goes_offline storeA2 10 "op1" 1) 11 "op1").conversations =
      storeA2.conversations ∧
    (operator_goes_online (operator_goes_offline storeA2 10 "op1" 1) 11 "op1").graces =
      storeA2.graces.filter (fun e => decide (e.operator_id ≠ "op1")) ∧
    (operator_goes_offline storeA2 10 "op1" 1).graces =
      [⟨"c1", "op1", 70, GraceReason.OFFLINE⟩] := by
  have h := C7_offline_online storeA2 10 11 "op1" 1
  have hval : (10 : ℚ) + 60 * 1 = 70 := by norm_num
  have h6 := h.2.1
  rw [hval] at h6
  refine ⟨h.1, h.2.1,
    h.2.2.1 ⟨"op1", OperatorAvailability.OFFLINE, 10⟩ (by decide) (by decide),
    h.2.2.2.1, h.2.2.2.2.1, ?_⟩
  rw [h6]
  decide

-- =========================
-- C8: the grace-expiry sweep
-- =========================

theorem find?_updateFirst_of_disjoint {l : List α} {p q : α → Bool} {f : α → α}
    (h : ∀ a, p a = true → (q a = false ∧ q (f a) = false)) :
    (updateFirst l p f).find? q = l.find? q := by
  induction l with
  | nil => rfl
  | cons a as ih =>
    rw [updateFirst]
    by_cases hpa : p a
    · rw [if_pos hpa, List.find?_cons_of_neg _ (by simp [(h a hpa).2]),
        List.find?_cons_of_neg _ (by simp [(h a hpa).1])]
    · rw [if_neg hpa]
      by_cases hqa : q a
      · rw [List.find?_cons_of_pos _ hqa, List.find?_cons_of_pos _ hqa]
      · rw [List.find?_cons_of_neg _ hqa, List.find?_cons_of_neg _ hqa, ih]

theorem find?_updateFirst_self (l : List α) (p : α → Bool) (f : α → α)
    (hf : ∀ a, p (f a) = p a) :
    (updateFirst l p f).find? p = (l.find? p).map f := by
  induction l with
  | nil => rfl
  | cons a as ih =>
    rw [updateFirst]
    by_cases hpa : p a
    · rw [if_pos hpa, List.find?_cons_of_pos _ (by simp [hf a, hpa]),
        List.find?_cons_of_pos _ hpa]
      rfl
    · rw [if_neg hpa, List.find?_cons_of_neg _ hpa, List.find?_cons_of_neg _ hpa, ih]

theorem graceStep_find?_ne {now : ℚ} {cs : List Conversation} {gr : GraceEntry}
    {i : String} (hne : gr.conversation_id ≠ i) :
    (graceStep now cs gr).find? (fun c => decide (c.id = i)) =
      cs.find? (fun c => decide (c.id = i)) := by
  rw [graceStep]
  split
  · rfl
  · split
    · apply find?_updateFirst_of_disjoint
      intro a hpa
      simp only [decide_eq_true_eq] at hpa
      constructor <;> simp [hpa, hne]
    · rfl

theorem graceStep_revert {now : ℚ} {cs : List Conversation} {gr : GraceEntry}
    {i : String} {conv : Conversation} (hgi : gr.conversation_id = i)
    (hfind : cs.find? (fun c => decide (c.id = i)) = some conv)
    (halloc : conv.state = ConversationState.ALLOCATED) :
    (graceStep now cs gr).find? (fun c => decide (c.id = i)) =
      some { conv with
               state := ConversationState.QUEUED
               assigned_operator_id := none
               updated_at := now } := by
  subst hgi
  simp only [graceStep, hfind]
  rw [if_pos halloc,
    find?_updateFirst_self cs (fun c => decide (c.id = gr.conversation_id))
      (fun c =>
        { c with
            state := ConversationState.QUEUED
            assigned_operator_id := none
            updated_at := now })
      (fun a => rfl),
    hfind]
  rfl

theorem graceStep_keep {now : ℚ} {cs : List Conversation} {gr : GraceEntry}
    {i : String} {conv : Conversation}
    (hfind : cs.find? (fun c => decide (c.id = i)) = some conv)
    (hst : conv.state ≠ ConversationState.ALLOCATED) :
    (graceStep now cs gr).find? (fun c => decide (c.id = i)) = some conv := by
  by_cases hne : gr.conversation_id = i
  · subst hne
    simp only [graceStep, hfind]
    rw [if_neg hst]
    exact hfind
  · rw [graceStep_find?_ne hne]
    exact hfind

theorem foldl_graceStep_frame {gs : List GraceEntry} {cs : List Conversation}
    {now : ℚ} {i : String} (h : ∀ e ∈ gs, e.conversation_id ≠ i) :
    (gs.foldl (graceStep now) cs).find? (fun c => decide (c.id = i)) =
      cs.find? (fun c => decide (c.id = i)) := by
  induction gs generalizing cs with
  | nil => rfl
  | cons e es ih =>
    rw [List.foldl_cons, ih (fun e' he' => h e' (List.mem_cons_of_mem _ he')),
      graceStep_find?_ne (h e (List.mem_cons_self _ _))]

theorem foldl_graceStep_keep {gs : List GraceEntry} {cs : List Conversation}
    {now : ℚ} {i : String} {conv : Conversation}
    (hfind : cs.find? (fun c => decide (c.id = i)) = some conv)
    (hst : conv.state ≠ ConversationState.ALLOCATED) :
    (gs.foldl (graceStep now) cs).find? (fun c => decide (c.id = i)) = some conv := by
  induction gs generalizing cs with
  | nil => exact hfind
  | cons e es ih =>
    rw [List.foldl_cons]
    exact ih (graceStep_keep hfind hst)

theorem foldl_graceStep_revert {gs : List GraceEntry} {cs : List Conversation}
    {now : ℚ} {i : String} {conv : Conversation}
    (hfind : cs.find? (fun c => decide (c.id = i)) = some conv)
    (halloc : conv.state = ConversationState.ALLOCATED)
    (hex : ∃ e ∈ gs, e.conversation_id = i) :
    (gs.foldl (graceStep now) cs).find? (fun c => decide (c.id = i)) =
      some { conv with
               state := ConversationState.QUEUED
               assigned_operator_id := none
               updated_at := now } := by
  induction gs generalizing cs with
  | nil => rcases hex with ⟨e, he, _⟩; cases he
  | cons e es ih =>
    rw [List.foldl_cons]
    by_cases he : e.conversation_id = i
    · refine foldl_graceStep_keep (graceStep_revert he hfind halloc) ?_
      intro hh
      cases hh
    · rcases hex with ⟨e0, he0, he0i⟩
      rcases List.mem_cons.mp he0 with rfl | hmem
      · exact absurd he0i he
      · exact ih (Eq.trans (graceStep_find?_ne he) hfind) ⟨e0, hmem, he0i⟩

/-- C8: one sweep of `process_grace_expiry` at time `now` (i) keeps
exactly the grace entries with `expires_at > now`, deleting every
expired entry whatever the state of its conversation; (ii) leaves every
conversation untouched that no expired entry references; (iii) reverts
the conversation of an expired entry to QUEUED with a cleared assignee
when it is still ALLOCATED; and (iv) is idempotent — an immediate
second sweep at the same time changes nothing. -/
theorem C8_grace_expiry_sweep (db : DB) (now : ℚ) :
    (process_grace_expiry db now).graces =
      db.graces.filter (fun e => decide (now < e.expires_at)) ∧
    (∀ i : String,
      (∀ e ∈ db.graces, e.expires_at ≤ now → e.conversation_id ≠ i) →
      (process_grace_expiry db now).conversations.find? (fun c => decide (c.id = i)) =
        db.conversations.find? (fun c => decide (c.id = i))) ∧
    (∀ (i : String) (conv : Conversation),
      db.conversations.find? (fun c => decide (c.id = i)) = some conv →
      conv.state = ConversationState.ALLOCATED →
      (∃ e ∈ db.graces, e.expires_at ≤ now ∧ e.conversation_id = i) →
      (process_grace_expiry db now).conversations.find? (fun c => decide (c.id = i)) =
        some { conv with
                 state := ConversationState.QUEUED
                 assigned_operator_id := none
                 updated_at := now }) ∧
    process_grace_expiry (process_grace_expiry db now) now =
      process_grace_expiry db now := by
  refine ⟨rfl, ?_, ?_, ?_⟩
  · intro i h
    apply foldl_graceStep_frame
    intro e he
    have hm := List.mem_filter.mp he
    exact h e hm.1 (by simpa using hm.2)
  · intro i conv hfind halloc hex
    apply foldl_graceStep_revert hfind halloc
    rcases hex with ⟨e, he, hle, hei⟩
    exact ⟨e, List.mem_filter.mpr ⟨he, by simpa using hle⟩, hei⟩
  · have hnil : (process_grace_expiry db now).graces.filter
        (fun e => decide (e.expires_at ≤ now)) = [] := by
      rw [List.filter_eq_nil_iff]
      intro e he
      have hm := List.mem_filter.mp he
      have hlt : now < e.expires_at := by simpa using hm.2
      simp [not_le.mpr hlt]
    have hall : (process_grace_expiry db now).graces.filter
        (fun e => decide (now < e.expires_at)) = (process_grace_expiry db now).graces := by
      rw [List.filter_eq_self]
      intro e he
      have hm := List.mem_filter.mp he
      exact hm.2
    have key : ∀ d : DB,
        d.graces.filter (fun e => decide (e.expires_at ≤ now)) = [] →
        d.graces.filter (fun e => decide (now < e.expires_at)) = d.graces →
        process_grace_expiry d now = d := by
      intro d h1 h2
      simp only [process_grace_expiry, h1, h2, List.foldl_nil]
    exact key (process_grace_expiry db now) hnil hall

/-- C8 witness: on `storeG` at time 50 the entry for `cg1` (expiry 10)
is processed — `cg1` reverts to QUEUED with no assignee — while the
unexpired entry for `cg2` (expiry 100) survives and `cg2` is untouched;
the immediate second sweep is a no-op. -/
theorem C8_witness :
    (process_grace_expiry storeG 50).graces =
      storeG.graces.filter (fun e => decide ((50 : ℚ) < e.expires_at)) ∧
    (process_grace_expiry storeG 50).conversations.find?
        (fun c => decide (c.id = "cg2")) =
      storeG.conversations.find? (fun c => decide (c.id = "cg2")) ∧
    (process_grace_expiry storeG 50).conversations.find?
        (fun c => decide (c.id = "cg1")) =
      some { convG1 with
               state := ConversationState.QUEUED
               assigned_operator_id := none
               updated_at := 50 } ∧
    process_grace_expiry (process_grace_expiry storeG 50) 50 =
      process_grace_expiry storeG 50 := by
  have h := C8_grace_expiry_sweep storeG 50
  exact ⟨h.1, h.2.1 "cg2" (by decide), h.2.2.1 "cg1" convG1 (by decide) (by decide)
    ⟨⟨"cg1", "og", 10, GraceReason.OFFLINE⟩, by decide, by decide, by decide⟩,
    h.2.2.2⟩

end InboxAllocation
